import Mathlib

/-!
Verification of the resize / collapse layout logic of the libreoj frontend
(`SubmitViewFrame.tsx` and the split layout of `ProblemViewPage`).

The drag handlers compute with JavaScript numbers; finite values are modelled
exactly as rationals, and the IEEE-754 special values `NaN` and the two
infinities are modelled explicitly, because the horizontal resize divides by a
container width that may be zero and then filters the result through a range
test (which is false for `NaN` and for out-of-range infinities, exactly as in
JavaScript).
-/

namespace LayoutProof

/-- A JavaScript number: `NaN`, the two infinities, or a finite value
(modelled exactly as a rational). -/
inductive JSNum where
  | nan : JSNum
  | posInf : JSNum
  | negInf : JSNum
  | fin : ℚ → JSNum
deriving DecidableEq

namespace JSNum

/-- JavaScript subtraction on numbers (cases needed: any). -/
def sub : JSNum → JSNum → JSNum
  | nan, _ => nan
  | _, nan => nan
  | posInf, posInf => nan
  | posInf, _ => posInf
  | negInf, negInf => nan
  | negInf, _ => negInf
  | fin _, posInf => negInf
  | fin _, negInf => posInf
  | fin a, fin b => fin (a - b)

/-- JavaScript division: division of a nonzero finite value by zero yields a
signed infinity, `0 / 0` yields `NaN`. -/
def div : JSNum → JSNum → JSNum
  | nan, _ => nan
  | _, nan => nan
  | posInf, posInf => nan
  | posInf, negInf => nan
  | negInf, posInf => nan
  | negInf, negInf => nan
  | posInf, fin b => if b < 0 then negInf else posInf
  | negInf, fin b => if b < 0 then posInf else negInf
  | fin _, posInf => fin 0
  | fin _, negInf => fin 0
  | fin a, fin b =>
      if b = 0 then
        if a = 0 then nan else if 0 < a then posInf else negInf
      else fin (a / b)

/-- JavaScript multiplication; `0 * ∞ = NaN`. -/
def mul : JSNum → JSNum → JSNum
  | nan, _ => nan
  | _, nan => nan
  | posInf, posInf => posInf
  | posInf, negInf => negInf
  | negInf, posInf => negInf
  | negInf, negInf => posInf
  | posInf, fin b => if b = 0 then nan else if b < 0 then negInf else posInf
  | negInf, fin b => if b = 0 then nan else if b < 0 then posInf else negInf
  | fin a, posInf => if a = 0 then nan else if a < 0 then negInf else posInf
  | fin a, negInf => if a = 0 then nan else if a < 0 then posInf else negInf
  | fin a, fin b => fin (a * b)

/-- JavaScript `<=` on numbers: any comparison involving `NaN` is false. -/
def le : JSNum → JSNum → Bool
  | nan, _ => false
  | _, nan => false
  | negInf, _ => true
  | _, posInf => true
  | posInf, _ => false
  | fin _, negInf => false
  | fin a, fin b => decide (a ≤ b)

/-- Whether a JavaScript number is `NaN`. -/
def isNaN : JSNum → Bool
  | nan => true
  | _ => false

end JSNum

/-- The result of `getBoundingClientRect()` on the split container: the fields
the horizontal move handler reads. -/
structure Rect where
  left : ℚ
  width : ℚ
deriving DecidableEq

/-- The horizontal split state of `ProblemViewPage`:
`useState(50)` for `leftWidthPercentage` and `useState(false)` for
`isResizing`. -/
structure SplitState where
  leftWidthPercentage : JSNum
  isResizing : Bool
deriving DecidableEq

/-- The initial split state: `leftWidthPercentage = 50`, not resizing. -/
def splitInitial : SplitState :=
  { leftWidthPercentage := JSNum.fin 50, isResizing := false }

/-- The `onMouseMove` handler installed by `startResizing` in
`ProblemViewPage`: when the container ref is non-null it reads the current
bounding box, computes
`newLeftWidth = ((clientX - left) / width) * 100` with JavaScript
arithmetic, and writes it to `leftWidthPercentage` only when
`newLeftWidth >= 0 && newLeftWidth <= 100`; otherwise (and when the ref is
null) the state is left unchanged. -/
def onMouseMoveSplit (bounds : Option Rect) (clientX : ℚ) (s : SplitState) :
    SplitState :=
  match bounds with
  | none => s
  | some r =>
      let newLeftWidth :=
        JSNum.mul
          (JSNum.div (JSNum.sub (JSNum.fin clientX) (JSNum.fin r.left))
            (JSNum.fin r.width))
          (JSNum.fin 100)
      if JSNum.le (JSNum.fin 0) newLeftWidth && JSNum.le newLeftWidth (JSNum.fin 100) then
        { s with leftWidthPercentage := newLeftWidth }
      else s

/-- `restoreLeft` of `ProblemViewPage`: `setLeftWidthPercentage(50)`. -/
def restoreLeft (s : SplitState) : SplitState :=
  { s with leftWidthPercentage := JSNum.fin 50 }

/-- `restoreRight` of `ProblemViewPage`: `setLeftWidthPercentage(50)`. -/
def restoreRight (s : SplitState) : SplitState :=
  { s with leftWidthPercentage := JSNum.fin 50 }

/-- A whole horizontal drag: a fold of move events (each carrying the bounding
box read at that move, `none` when the ref is null, and the pointer X) over
the initial state. -/
def splitDrag (moves : List (Option Rect × ℚ)) : SplitState :=
  moves.foldl (fun s m => onMouseMoveSplit m.1 m.2 s) splitInitial

/-- A percentage value is in range when it is finite and within [0, 100]. -/
def inRangeB : JSNum → Bool
  | JSNum.fin q => decide (0 ≤ q ∧ q ≤ 100)
  | _ => false

/-- The bottom panel state of `SubmitViewFrame`: `useState(120)` for the
height, `useState(false)` for the resizing and collapsed flags. -/
structure BottomState where
  bottomPanelHeight : ℚ
  isResizingBottom : Bool
  isBottomCollapsed : Bool
deriving DecidableEq

/-- The initial bottom panel state. -/
def bottomInitial : BottomState :=
  { bottomPanelHeight := 120, isResizingBottom := false, isBottomCollapsed := false }

/-- The `onMouseMove` handler installed by `startResizingBottom` in
`SubmitViewFrame`: `deltaY = startY - clientY`,
`newHeight = startHeight + deltaY`; when `30 <= newHeight < 600` the height
becomes `newHeight` and the collapsed flag is cleared; when `newHeight < 30`
the height becomes exactly 30 and the collapsed flag is set; otherwise
(`newHeight >= 600`) nothing is updated. All values are finite, so plain
rational arithmetic is exact here. -/
def onMouseMoveBottom (startY startHeight clientY : ℚ) (s : BottomState) :
    BottomState :=
  let deltaY := startY - clientY
  let newHeight := startHeight + deltaY
  if 30 ≤ newHeight ∧ newHeight < 600 then
    { s with bottomPanelHeight := newHeight, isBottomCollapsed := false }
  else if newHeight < 30 then
    { s with bottomPanelHeight := 30, isBottomCollapsed := true }
  else s

/-- `toggleBottomCollapse` of `SubmitViewFrame`: when collapsed, set the
height to 120 and clear the flag; when expanded, set the height to 30 and set
the flag. The source uses the constant 120 unconditionally. -/
def toggleBottomCollapse (s : BottomState) : BottomState :=
  if s.isBottomCollapsed then
    { s with bottomPanelHeight := 120, isBottomCollapsed := false }
  else
    { s with bottomPanelHeight := 30, isBottomCollapsed := true }

/-- The toggle as the spec describes it (for comparison with the source):
when collapsed, restore the device-appropriate default height, 240 for narrow
viewports and 120 otherwise, and clear the flag; when expanded, set 30 and
set the flag. -/
def toggleBottomCollapseSpec (narrowViewport : Bool) (s : BottomState) :
    BottomState :=
  if s.isBottomCollapsed then
    { s with bottomPanelHeight := if narrowViewport then 240 else 120,
             isBottomCollapsed := false }
  else
    { s with bottomPanelHeight := 30, isBottomCollapsed := true }

/-- The kinds of global (window) listeners a drag session could install. -/
inductive GlobalListener where
  | mousemove : GlobalListener
  | mouseup : GlobalListener
  | touchmove : GlobalListener
  | touchend : GlobalListener
deriving DecidableEq

/-- A global input event reaching the window during a bottom drag session.
A touch move carries `touches[0].clientY`. -/
inductive InputEvent where
  | mouseMove : ℚ → InputEvent
  | mouseUp : InputEvent
  | touchMove : ℚ → InputEvent
  | touchEnd : InputEvent
deriving DecidableEq

/-- A bottom drag session: the panel state together with the global listeners
currently installed by this session. -/
structure BottomSession where
  panel : BottomState
  listeners : List GlobalListener
deriving DecidableEq

/-- `startResizingBottom` of `SubmitViewFrame`: sets the resizing flag and
adds exactly two window listeners, `mousemove` and `mouseup`. The source adds
no touch-family listener. -/
def startResizingBottomSession (s : BottomState) : BottomSession :=
  { panel := { s with isResizingBottom := true },
    listeners := [GlobalListener.mousemove, GlobalListener.mouseup] }

/-- Dispatch of one global input event to the listeners installed by
`startResizingBottom`. The source attaches handlers only under the
`mousemove` and `mouseup` event names, so touch events find no handler of
this session and leave it unchanged. The `mouseup` handler clears the
resizing flag and removes the `mousemove` and `mouseup` listeners. -/
def dispatchBottom (startY startHeight : ℚ) (e : InputEvent)
    (ss : BottomSession) : BottomSession :=
  match e with
  | InputEvent.mouseMove y =>
      if GlobalListener.mousemove ∈ ss.listeners then
        { ss with panel := onMouseMoveBottom startY startHeight y ss.panel }
      else ss
  | InputEvent.mouseUp =>
      if GlobalListener.mouseup ∈ ss.listeners then
        { panel := { ss.panel with isResizingBottom := false },
          listeners :=
            (ss.listeners.erase GlobalListener.mousemove).erase
              GlobalListener.mouseup }
      else ss
  | InputEvent.touchMove _ => ss
  | InputEvent.touchEnd => ss

/-- Unmounting the host component: the source registers no cleanup for the
drag listeners (there is no `useEffect` teardown touching them), so
unmounting leaves the session's global listener list and the captured state
untouched. -/
def unmountHost (ss : BottomSession) : BottomSession := ss

/-- A session started from the initial bottom state (height 120). -/
def beginSession120 : BottomSession :=
  startResizingBottomSession bottomInitial

/-- C2: on every bottom move, with `newHeight = startHeight + (startY -
currentY)`: if `30 <= newHeight < 600` the handler stores exactly `newHeight`
and clears `isBottomCollapsed`; if `newHeight < 30` it stores exactly 30 (not
the computed sub-30 value) and sets `isBottomCollapsed`. -/
theorem bottom_move_policy (startY startHeight clientY : ℚ) (s : BottomState) :
    (30 ≤ startHeight + (startY - clientY) →
      startHeight + (startY - clientY) < 600 →
      onMouseMoveBottom startY startHeight clientY s =
        { s with bottomPanelHeight := startHeight + (startY - clientY),
                 isBottomCollapsed := false }) ∧
    (startHeight + (startY - clientY) < 30 →
      onMouseMoveBottom startY startHeight clientY s =
        { s with bottomPanelHeight := 30, isBottomCollapsed := true }) := by
  constructor
  · intro h1 h2
    simp only [onMouseMoveBottom]
    rw [if_pos ⟨h1, h2⟩]
  · intro h
    simp only [onMouseMoveBottom]
    rw [if_neg, if_pos h]
    rintro ⟨h1, _⟩
    linarith

/-- Witness for `bottom_move_policy`: scenario B (startHeight 120, origin
Y 300, move to Y 100 gives height 320, not collapsed) and scenario C (move to
Y 400 gives raw height 20, stored as 30 and collapsed). -/
theorem bottom_move_policy_witness :
    onMouseMoveBottom 300 120 100 (BottomState.mk 120 true false) =
      BottomState.mk 320 true false ∧
    onMouseMoveBottom 300 120 400 (BottomState.mk 120 true false) =
      BottomState.mk 30 true true := by
  constructor
  · have h := (bottom_move_policy 300 120 100 (BottomState.mk 120 true false)).1
      (by norm_num) (by norm_num)
    rw [h]
    norm_num
  · exact (bottom_move_policy 300 120 400 (BottomState.mk 120 true false)).2
      (by norm_num)

/-- C6: a bottom move whose computed `newHeight` is at least 600 is a no-op:
both the stored height and the collapsed flag keep their current values. -/
theorem bottom_move_ceiling_noop (startY startHeight clientY : ℚ)
    (s : BottomState) (h : 600 ≤ startHeight + (startY - clientY)) :
    onMouseMoveBottom startY startHeight clientY s = s := by
  simp only [onMouseMoveBottom]
  rw [if_neg, if_neg]
  · linarith
  · rintro ⟨_, h2⟩
    linarith

/-- Witness for `bottom_move_ceiling_noop`: start height 500, origin Y 300,
move to Y 100 gives raw height 700 ≥ 600 and the state is unchanged. -/
theorem bottom_move_ceiling_noop_witness :
    onMouseMoveBottom 300 500 100 (BottomState.mk 500 true false) =
      BottomState.mk 500 true false :=
  bottom_move_ceiling_noop 300 500 100 (BottomState.mk 500 true false)
    (by norm_num)

/-- C5 counterexample: from a collapsed state on a narrow viewport the code's
toggle restores height 120, while the claimed device-appropriate default for
narrow viewports is 240; the two differ. -/
theorem toggle_default_counterexample :
    (toggleBottomCollapse (BottomState.mk 30 false true)).bottomPanelHeight =
      120 ∧
    (toggleBottomCollapseSpec true
        (BottomState.mk 30 false true)).bottomPanelHeight = 240 ∧
    (toggleBottomCollapse (BottomState.mk 30 false true)).bottomPanelHeight ≠
      (toggleBottomCollapseSpec true
        (BottomState.mk 30 false true)).bottomPanelHeight := by
  refine ⟨rfl, rfl, ?_⟩
  norm_num [toggleBottomCollapse, toggleBottomCollapseSpec]

/-- C5 amended: `toggleBottomCollapse` restores the height to exactly 120
regardless of viewport width when collapsed (clearing the flag), and snaps to
30 and sets the flag when expanded; the expand branch always returns 120,
never the last custom dragged height. -/
theorem toggle_restores_fixed_default (s : BottomState) :
    (s.isBottomCollapsed = true →
      toggleBottomCollapse s =
        { s with bottomPanelHeight := 120, isBottomCollapsed := false }) ∧
    (s.isBottomCollapsed = false →
      toggleBottomCollapse s =
        { s with bottomPanelHeight := 30, isBottomCollapsed := true }) := by
  constructor
  · intro h
    simp only [toggleBottomCollapse, h, if_true]
  · intro h
    simp only [toggleBottomCollapse, h, Bool.false_eq_true, if_false]

/-- Witness for `toggle_restores_fixed_default`: from a collapsed state whose
stored height is the custom value 500 the toggle restores 120 (not 500), and
from an expanded custom state it snaps to 30. -/
theorem toggle_restores_fixed_default_witness :
    toggleBottomCollapse (BottomState.mk 500 false true) =
      BottomState.mk 120 false false ∧
    toggleBottomCollapse (BottomState.mk 500 false false) =
      BottomState.mk 30 false true :=
  ⟨(toggle_restores_fixed_default (BottomState.mk 500 false true)).1 rfl,
   (toggle_restores_fixed_default (BottomState.mk 500 false false)).2 rfl⟩

/-- C8: two consecutive calls of `toggleBottomCollapse` return the
`isBottomCollapsed` flag to its original value, from any starting state
(the stored height after the pair need not equal the pre-toggle height). -/
theorem toggle_flag_involution (s : BottomState) :
    (toggleBottomCollapse (toggleBottomCollapse s)).isBottomCollapsed =
      s.isBottomCollapsed := by
  cases s with
  | mk h r c =>
      cases c <;> simp [toggleBottomCollapse]

/-- C9: `restoreLeft` and `restoreRight` both set `leftWidthPercentage` to
exactly 50, whatever its prior value. -/
theorem restore_sets_midpoint (s : SplitState) :
    (restoreLeft s).leftWidthPercentage = JSNum.fin 50 ∧
    (restoreRight s).leftWidthPercentage = JSNum.fin 50 :=
  ⟨rfl, rfl⟩

/-- A JavaScript number passing both range comparisons of the horizontal
guard is finite and within [0, 100]. -/
lemma le_guard_inRange (n : JSNum) (h0 : JSNum.le (JSNum.fin 0) n = true)
    (h1 : JSNum.le n (JSNum.fin 100) = true) : inRangeB n = true := by
  cases n with
  | nan => simp [JSNum.le] at h0
  | posInf => simp [JSNum.le] at h1
  | negInf => simp [JSNum.le] at h0
  | fin q =>
      simp only [JSNum.le, decide_eq_true_eq] at h0 h1
      simp [inRangeB, h0, h1]

/-- One horizontal move either leaves the state unchanged or writes an
in-range finite percentage. -/
lemma split_move_step (bounds : Option Rect) (clientX : ℚ) (s : SplitState) :
    onMouseMoveSplit bounds clientX s = s ∨
    inRangeB (onMouseMoveSplit bounds clientX s).leftWidthPercentage = true := by
  cases bounds with
  | none => exact Or.inl rfl
  | some r =>
      simp only [onMouseMoveSplit]
      split
      · next h =>
          rw [Bool.and_eq_true] at h
          exact Or.inr (le_guard_inRange _ h.1 h.2)
      · exact Or.inl rfl

/-- A fold of horizontal moves preserves the in-range property of
`leftWidthPercentage`. -/
lemma split_fold_inRange (moves : List (Option Rect × ℚ)) (s : SplitState)
    (hs : inRangeB s.leftWidthPercentage = true) :
    inRangeB
      ((moves.foldl (fun t m => onMouseMoveSplit m.1 m.2 t) s).leftWidthPercentage)
      = true := by
  induction moves generalizing s with
  | nil => exact hs
  | cons m ms ih =>
      rw [List.foldl_cons]
      rcases split_move_step m.1 m.2 s with h | h
      · exact ih _ (by rw [h]; exact hs)
      · exact ih _ h

/-- An in-range percentage is not `NaN`. -/
lemma inRangeB_not_nan (n : JSNum) (h : inRangeB n = true) :
    JSNum.isNaN n = false := by
  cases n <;> simp_all [inRangeB, JSNum.isNaN]

/-- C1: every horizontal move computes
`newLeftPercentage = ((pointerX - left) / width) * 100` from the current
bounding box and applies it only when it lies within [0, 100]; an
out-of-range value is rejected, leaving the state unchanged that frame.
Hence, for every sequence of moves from the default 50, the stored
`leftWidthPercentage` is always finite, within [0, 100], and never `NaN`. -/
theorem split_move_clamp_reject :
    (∀ (bounds : Option Rect) (clientX : ℚ) (s : SplitState),
        onMouseMoveSplit bounds clientX s = s ∨
        inRangeB (onMouseMoveSplit bounds clientX s).leftWidthPercentage =
          true) ∧
    (∀ moves : List (Option Rect × ℚ),
        inRangeB (splitDrag moves).leftWidthPercentage = true ∧
        JSNum.isNaN (splitDrag moves).leftWidthPercentage = false) := by
  refine ⟨split_move_step, fun moves => ?_⟩
  have h : inRangeB (splitDrag moves).leftWidthPercentage = true := by
    have h50 : inRangeB splitInitial.leftWidthPercentage = true := by
      simp [splitInitial, inRangeB]
      norm_num
    exact split_fold_inRange moves splitInitial h50
  exact ⟨h, inRangeB_not_nan _ h⟩

/-- C7: a horizontal move while the container bounding box has zero width is
a no-op: the JavaScript computation produces `NaN` or a signed infinity, the
range guard rejects it, and `leftWidthPercentage` is unchanged; the handler
is a total function, so no fault is raised. -/
theorem split_move_zero_width_noop (l clientX : ℚ) (s : SplitState) :
    onMouseMoveSplit (some (Rect.mk l 0)) clientX s = s := by
  rcases lt_trichotomy (clientX - l) 0 with h | h | h
  · norm_num [onMouseMoveSplit, JSNum.sub, JSNum.div, JSNum.mul, JSNum.le,
      h.ne, not_lt.mpr h.le]
  · norm_num [onMouseMoveSplit, JSNum.sub, JSNum.div, JSNum.mul, JSNum.le, h]
  · norm_num [onMouseMoveSplit, JSNum.sub, JSNum.div, JSNum.mul, JSNum.le,
      h.ne.symm, h, not_lt.mpr h.le]

/-- C3 counterexample: `startResizingBottom` registers no touch-family
listener, so a touch session is not trackable: after `begin` the listener
list does not contain `touchmove`, a touch-move with `touches[0].clientY =
250` leaves the session unchanged, while a mouse move with `clientY = 250`
from origin Y 300 and start height 120 updates the height to 170. -/
theorem touch_not_registered_counterexample :
    beginSession120.listeners.contains GlobalListener.touchmove = false ∧
    dispatchBottom 300 120 (InputEvent.touchMove 250) beginSession120 =
      beginSession120 ∧
    (dispatchBottom 300 120 (InputEvent.mouseMove 250)
        beginSession120).panel.bottomPanelHeight = 170 ∧
    beginSession120.panel.bottomPanelHeight = 120 := by
  refine ⟨rfl, rfl, ?_, rfl⟩
  norm_num [dispatchBottom, beginSession120, startResizingBottomSession,
    bottomInitial, onMouseMoveBottom]

/-- C3 amended: a bottom drag session registers its move and end handlers
for the mouse event family only (`mousemove` and `mouseup`); no touch-family
listener is registered, and touch-move and touch-end events leave the
session unchanged. -/
theorem mouse_only_registration :
    (∀ s : BottomState, (startResizingBottomSession s).listeners =
        [GlobalListener.mousemove, GlobalListener.mouseup]) ∧
    (∀ (startY startHeight y : ℚ) (ss : BottomSession),
        dispatchBottom startY startHeight (InputEvent.touchMove y) ss = ss) ∧
    (∀ (startY startHeight : ℚ) (ss : BottomSession),
        dispatchBottom startY startHeight InputEvent.touchEnd ss = ss) :=
  ⟨fun _ => rfl, fun _ _ _ _ => rfl, fun _ _ _ => rfl⟩

/-- C4 counterexample: unmounting the host while a drag session is active
leaves both global listeners installed (the source has no unmount cleanup
for them), and a further mouse move still fires the handler and changes the
captured panel state: the height goes from 120 to 170. -/
theorem unmount_leaves_listeners_counterexample :
    (unmountHost beginSession120).listeners.length = 2 ∧
    (dispatchBottom 300 120 (InputEvent.mouseMove 250)
        (unmountHost beginSession120)).panel.bottomPanelHeight = 170 ∧
    (unmountHost beginSession120).panel.bottomPanelHeight = 120 := by
  refine ⟨rfl, ?_, rfl⟩
  norm_num [dispatchBottom, unmountHost, beginSession120,
    startResizingBottomSession, bottomInitial, onMouseMoveBottom]

/-- C4 amended: unmounting removes none of the session's global listeners
(the source registers no cleanup, so unmount is the identity on the
session); the listeners are removed only by the `mouseup` handler, after
which the listener list is empty and further mouse moves are no-ops. -/
theorem unmount_no_cleanup :
    (∀ ss : BottomSession, unmountHost ss = ss) ∧
    (∀ startY startHeight : ℚ,
        (dispatchBottom startY startHeight InputEvent.mouseUp
            beginSession120).listeners = []) ∧
    (∀ startY startHeight y : ℚ,
        dispatchBottom startY startHeight (InputEvent.mouseMove y)
            (dispatchBottom startY startHeight InputEvent.mouseUp
              beginSession120) =
          dispatchBottom startY startHeight InputEvent.mouseUp
            beginSession120) := by
  refine ⟨fun _ => rfl, fun startY startHeight => rfl,
    fun startY startHeight y => ?_⟩
  have h : (dispatchBottom startY startHeight InputEvent.mouseUp
      beginSession120).listeners = [] := rfl
  generalize dispatchBottom startY startHeight InputEvent.mouseUp
    beginSession120 = t at h ⊢
  simp [dispatchBottom, h]

end LayoutProof
